import Mathlib

/-! Calxeda Highbank cpufreq voltage coordination.

A shallow embedding of `drivers/cpufreq/highbank-cpufreq.c`: the clock
notifier callback `hb_cpufreq_clk_notify` and the mailbox request
`hb_voltage_change` it retries.

The mailbox (PL320 IPC to the ECME) is the environment.  One call of
`hb_voltage_change` talks to it through `mbox_request_channel`,
`mbox_send_message` and `mbox_free_channel`; what the mailbox answers during
one such call is a value of `MboxReply`, and the behaviour of the channel over
a whole notification is the stream `Nat → MboxReply` of the answers to the
successive calls.  Every call is recorded (`VoltCall`) together with the
mailbox operations it performed, so that the number and the content of the
requests can be stated.

C integers: `unsigned int` and `u32` are naturals reduced modulo `2 ^ 32`,
`int` is an integer reduced to the two's complement range by `to_int`.
-/

namespace Highbank

/-! ## Constants of the driver -/

/-- The opcode `#define HB_CPUFREQ_CHANGE_NOTE 0x80000001`. -/
def HB_CPUFREQ_CHANGE_NOTE : Nat := 0x80000001

/-- The message length `#define HB_CPUFREQ_IPC_LEN 7`. -/
def HB_CPUFREQ_IPC_LEN : Nat := 7

/-- The retry constant `#define HB_CPUFREQ_VOLT_RETRIES 15`. -/
def HB_CPUFREQ_VOLT_RETRIES : Nat := 15

/-! ## Constants and helpers of kernel headers -/

/-- Modelled from the spec: the clock notifier action codes of `linux/clk.h`
are not among the sources.  The spec has `PreChange` as one of two distinct
phases; the value is the one of the header, `BIT(0)`. -/
def PRE_RATE_CHANGE : Nat := 1

/-- Modelled from the spec: the action code of the spec's phase `PostChange`,
`BIT(1)` in `linux/clk.h`, which is not among the sources. -/
def POST_RATE_CHANGE : Nat := 2

/-- Modelled from the spec: a third action code of `linux/clk.h`, `BIT(2)`,
which is neither of the spec's two phases. -/
def ABORT_RATE_CHANGE : Nat := 4

/-- Modelled from the spec: the spec's verdict `Proceed`, `NOTIFY_DONE` of
`linux/notifier.h`, which is not among the sources. -/
def NOTIFY_DONE : Int := 0

/-- Modelled from the spec: the spec's verdict `Veto`, `NOTIFY_BAD` of
`linux/notifier.h` (`NOTIFY_STOP_MASK | 0x0002`), which is not among the
sources. -/
def NOTIFY_BAD : Int := 0x8002

/-- Modelled from the spec: the errno of a timeout, from `errno.h`, which is
not among the sources; the spec calls the outcome `ChannelError`. -/
def ETIMEDOUT : Int := 110

/-- Modelled from the spec: the largest errno an error pointer encodes, from
`linux/err.h`, which is not among the sources. -/
def MAX_ERRNO : Int := 4095

/-- Modelled from the spec: `IS_ERR` of `linux/err.h`, which is not among the
sources.  A pointer is its address read as a signed long; the error pointers
are the top `MAX_ERRNO` addresses, the spec's "cannot acquire channel". -/
def IS_ERR (ptr : Int) : Bool := decide (-MAX_ERRNO ≤ ptr ∧ ptr < 0)

/-- Modelled from the spec: `PTR_ERR` of `linux/err.h`, which is not among the
sources: the address as a signed long, a negated errno for an error pointer. -/
def PTR_ERR (ptr : Int) : Int := ptr

/-! ## C integer conversions -/

/-- Conversion to `unsigned int` or `u32`. -/
def u32 (n : Nat) : Nat := n % 2 ^ 32

/-- Conversion to `int` (32 bits, two's complement). -/
def to_int (x : Int) : Int := (x + 2 ^ 31) % 2 ^ 32 - 2 ^ 31

/-! ## The mailbox -/

/-- The fields of `struct mbox_client` the driver sets; a callback or data
pointer is `none` when it is `NULL`. -/
structure mbox_client where
  rx_callback : Option Nat
  tx_done : Option Nat
  tx_block : Bool
  tx_tout : Nat
  link_data : Option Nat
  knows_txdone : Bool
  chan_name : String
deriving DecidableEq, Repr

/-- One operation on the mailbox, as performed by the driver. -/
inductive MboxOp where
  | request_channel (cl : mbox_client)
  | send_message (chan : Int) (msg : List Nat)
  | free_channel (chan : Int)
deriving DecidableEq, Repr

/-- What the mailbox answers during one call of `hb_voltage_change`:
the pointer `mbox_request_channel` returns, and for `mbox_send_message` the
returned value together with the message buffer as the PL320 leaves it. -/
structure MboxReply where
  request_channel : mbox_client → Int
  send_message : Int → List Nat → Int × List Nat

/-- The record of one call of `hb_voltage_change`: its argument, the mailbox
operations it performed in order, and the value it returned. -/
structure VoltCall where
  freq : Nat
  ops : List MboxOp
  ret : Int
deriving DecidableEq, Repr

/-- The initial contents of `u32 msg[HB_CPUFREQ_IPC_LEN]`: the two
initialisers, the remaining elements zero. -/
def hb_msg (freq : Nat) : List Nat :=
  [u32 HB_CPUFREQ_CHANGE_NOTE, u32 (freq / 1000000)]
    ++ List.replicate (HB_CPUFREQ_IPC_LEN - 2) 0

/-- The client `cl` as `hb_voltage_change` fills it. -/
def hb_client : mbox_client :=
  { rx_callback := none
    tx_done := none
    tx_block := true
    tx_tout := 1000
    link_data := none
    knows_txdone := false
    chan_name := "pl320:A9_to_M3" }

/-- The function `hb_voltage_change(unsigned int freq)`, run against the
mailbox answers `env`. -/
def hb_voltage_change (env : MboxReply) (freq : Nat) : VoltCall :=
  let msg := hb_msg freq
  let ret : Int := -ETIMEDOUT
  let cl := hb_client
  let chan := env.request_channel cl
  if IS_ERR chan then
    { freq := freq, ops := [MboxOp.request_channel cl], ret := to_int (PTR_ERR chan) }
  else
    let sent := env.send_message chan msg
    let ret := if sent.1 ≠ 0 then to_int (u32 (sent.2.getD 1 0)) else ret
    { freq := freq
      ops := [MboxOp.request_channel cl, MboxOp.send_message chan msg,
              MboxOp.free_channel chan]
      ret := ret }

/-! ## The notifier -/

/-- The rates of `struct clk_notifier_data`, in Hz. -/
structure clk_notifier_data where
  old_rate : Nat
  new_rate : Nat
deriving DecidableEq, Repr

/-- The loop
`while (hb_voltage_change(freq)) if (i++ > HB_CPUFREQ_VOLT_RETRIES) return NOTIFY_BAD;`
entered with counter `i`, against the channel behaviour `w` (the answers to
the calls still to come).  The first component is `some v` when the loop
executed `return v` and `none` when it ran to its end; the second lists the
calls made. -/
def volt_loop (w : Nat → MboxReply) (freq : Nat) (i : Nat) : Option Int × List VoltCall :=
  let c := hb_voltage_change (w 0) freq
  if c.ret ≠ 0 then
    if h : i > HB_CPUFREQ_VOLT_RETRIES then
      (some NOTIFY_BAD, [c])
    else
      let r := volt_loop (fun n => w (n + 1)) freq (i + 1)
      (r.1, c :: r.2)
  else
    (none, [c])
termination_by HB_CPUFREQ_VOLT_RETRIES + 1 - i
decreasing_by
  simp only [HB_CPUFREQ_VOLT_RETRIES] at h ⊢
  omega

/-- The result of one notification: the returned value and the calls of
`hb_voltage_change` made, in order. -/
structure NotifyRun where
  ret : Int
  calls : List VoltCall
deriving DecidableEq, Repr

/-- The statement `while (...) if (...) return NOTIFY_BAD;` followed by the
final `return NOTIFY_DONE;`. -/
def finish (r : Option Int × List VoltCall) : NotifyRun :=
  match r.1 with
  | some v => { ret := v, calls := r.2 }
  | none => { ret := NOTIFY_DONE, calls := r.2 }

/-- The callback `hb_cpufreq_clk_notify(nb, action, hclk)`, against the
channel behaviour `w`.  The argument of `hb_voltage_change` is the
`unsigned long` rate converted to `unsigned int`. -/
def hb_cpufreq_clk_notify (w : Nat → MboxReply) (action : Nat)
    (clk_data : clk_notifier_data) : NotifyRun :=
  let i := 0
  if action = PRE_RATE_CHANGE then
    if clk_data.new_rate > clk_data.old_rate then
      finish (volt_loop w (u32 clk_data.new_rate) i)
    else
      { ret := NOTIFY_DONE, calls := [] }
  else if action = POST_RATE_CHANGE then
    if clk_data.new_rate < clk_data.old_rate then
      finish (volt_loop w (u32 clk_data.new_rate) i)
    else
      { ret := NOTIFY_DONE, calls := [] }
  else
    { ret := NOTIFY_DONE, calls := [] }

/-- The messages handed to `mbox_send_message` by a list of operations. -/
def sent_msgs : List MboxOp → List (List Nat)
  | [] => []
  | MboxOp.send_message _ msg :: ops => msg :: sent_msgs ops
  | _ :: ops => sent_msgs ops

/-- The call of `hb_voltage_change` that attempt `j` (counted from 0) of a
retry loop makes against the channel behaviour `w`. -/
def attempt (w : Nat → MboxReply) (freq : Nat) (j : Nat) : VoltCall :=
  hb_voltage_change (w j) freq

/-- The events on which the notifier asks for a voltage change: a rate
increase before the change, a rate decrease after it. -/
def triggering (action : Nat) (clk_data : clk_notifier_data) : Prop :=
  (action = PRE_RATE_CHANGE ∧ clk_data.new_rate > clk_data.old_rate) ∨
  (action = POST_RATE_CHANGE ∧ clk_data.new_rate < clk_data.old_rate)

instance (action : Nat) (clk_data : clk_notifier_data) :
    Decidable (triggering action clk_data) := by
  unfold triggering
  infer_instance

/-! ## Channel behaviours used as concrete inputs -/

/-- A mailbox that grants the channel, reports delivery and leaves `status`
in word 1 of the buffer. -/
def reply_status (status : Nat) : MboxReply :=
  { request_channel := fun _ => 4096
    send_message := fun _ msg => (1, msg.set 1 status) }

/-- A mailbox that grants the channel and whose send reports no completion. -/
def reply_timeout : MboxReply :=
  { request_channel := fun _ => 4096
    send_message := fun _ msg => (0, msg) }

/-- A mailbox that refuses the channel with the error pointer of `errno`. -/
def reply_nochan (errno : Int) : MboxReply :=
  { request_channel := fun _ => -errno
    send_message := fun _ msg => (1, msg.set 1 0) }

/-- The channel that rejects every attempt with status 1. -/
def always_reject : Nat → MboxReply := fun _ => reply_status 1

/-- The channel that rejects the first `n` attempts and acknowledges from
then on. -/
def ack_after (n : Nat) : Nat → MboxReply :=
  fun j => if j < n then reply_status 1 else reply_status 0

/-- The channel whose first `n` attempts end in a transport failure (the send
reports no completion) and which acknowledges from then on. -/
def timeout_then_ack (n : Nat) : Nat → MboxReply :=
  fun j => if j < n then reply_timeout else reply_status 0

/-- A mailbox that grants the channel and reports delivery without touching
the buffer. -/
def reply_untouched : MboxReply :=
  { request_channel := fun _ => 4096
    send_message := fun _ msg => (1, msg) }

/-- All messages handed to `mbox_send_message` during one notification, in
order. -/
def run_msgs (r : NotifyRun) : List (List Nat) :=
  (r.calls.map (fun c => sent_msgs c.ops)).flatten

/-! ## The retry loop -/

theorem volt_loop_ack (w : Nat → MboxReply) (freq i : Nat)
    (h0 : (attempt w freq 0).ret = 0) :
    volt_loop w freq i = (none, [attempt w freq 0]) := by
  rw [volt_loop]
  simp only [attempt] at h0
  simp [h0, attempt]

theorem volt_loop_bad (w : Nat → MboxReply) (freq i : Nat)
    (h0 : (attempt w freq 0).ret ≠ 0) (hi : i > HB_CPUFREQ_VOLT_RETRIES) :
    volt_loop w freq i = (some NOTIFY_BAD, [attempt w freq 0]) := by
  rw [volt_loop]
  simp only [attempt] at h0
  simp [h0, hi, attempt]

theorem volt_loop_retry (w : Nat → MboxReply) (freq i : Nat)
    (h0 : (attempt w freq 0).ret ≠ 0) (hi : ¬ i > HB_CPUFREQ_VOLT_RETRIES) :
    volt_loop w freq i =
      ((volt_loop (fun n => w (n + 1)) freq (i + 1)).1,
        attempt w freq 0 :: (volt_loop (fun n => w (n + 1)) freq (i + 1)).2) := by
  rw [volt_loop]
  simp only [attempt] at h0
  simp [h0, hi, attempt]

theorem map_attempt_succ (w : Nat → MboxReply) (freq n : Nat) :
    (List.range (n + 1)).map (attempt w freq) =
      attempt w freq 0 :: (List.range n).map (attempt (fun j => w (j + 1)) freq) := by
  rw [List.range_succ_eq_map, List.map_cons, List.map_map]
  rfl

/-- Budget exhaustion: entered with counter `i` and `16 - i` further
attempts, all failing, the loop makes them all and returns `NOTIFY_BAD`. -/
theorem volt_loop_exhaust (freq : Nat) :
    ∀ (k : Nat) (w : Nat → MboxReply) (i : Nat),
      i + k = HB_CPUFREQ_VOLT_RETRIES + 1 →
      (∀ j, j ≤ k → (attempt w freq j).ret ≠ 0) →
      volt_loop w freq i = (some NOTIFY_BAD, (List.range (k + 1)).map (attempt w freq)) := by
  intro k
  induction k with
  | zero =>
    intro w i hi hfail
    have hgt : i > HB_CPUFREQ_VOLT_RETRIES := by omega
    rw [volt_loop_bad w freq i (hfail 0 (le_refl 0)) hgt]
    rfl
  | succ k ih =>
    intro w i hi hfail
    have hle : ¬ i > HB_CPUFREQ_VOLT_RETRIES := by omega
    rw [volt_loop_retry w freq i (hfail 0 (Nat.zero_le _)) hle]
    rw [ih (fun n => w (n + 1)) (i + 1) (by omega)
      (fun j hj => hfail (j + 1) (by omega))]
    rw [map_attempt_succ w freq (k + 1)]

/-- First acknowledgment: when the attempts before attempt `m` fail, attempt
`m` is acknowledged and the counter does not pass the budget before it, the
loop makes exactly the attempts `0..m` and runs to its end. -/
theorem volt_loop_first_ack (freq : Nat) :
    ∀ (m : Nat) (w : Nat → MboxReply) (i : Nat),
      i + m ≤ HB_CPUFREQ_VOLT_RETRIES + 1 →
      (∀ j, j < m → (attempt w freq j).ret ≠ 0) →
      (attempt w freq m).ret = 0 →
      volt_loop w freq i = (none, (List.range (m + 1)).map (attempt w freq)) := by
  intro m
  induction m with
  | zero =>
    intro w i _ _ hack
    rw [volt_loop_ack w freq i hack]
    rfl
  | succ m ih =>
    intro w i hi hfail hack
    have hle : ¬ i > HB_CPUFREQ_VOLT_RETRIES := by omega
    rw [volt_loop_retry w freq i (hfail 0 (Nat.succ_pos _)) hle]
    rw [ih (fun n => w (n + 1)) (i + 1) (by omega)
      (fun j hj => hfail (j + 1) (by omega)) hack]
    rw [map_attempt_succ w freq (m + 1)]

/-- Whatever the channel does, the calls of the loop are the attempts
`0..n-1` for some `n ≥ 1`, at most `17 - i` of them. -/
theorem volt_loop_calls (freq : Nat) :
    ∀ (d : Nat) (w : Nat → MboxReply) (i : Nat),
      HB_CPUFREQ_VOLT_RETRIES + 1 - i ≤ d →
      ∃ n, 1 ≤ n ∧ n ≤ d + 1 ∧
        (volt_loop w freq i).2 = (List.range n).map (attempt w freq) := by
  intro d
  induction d with
  | zero =>
    intro w i hi
    refine ⟨1, le_refl 1, le_refl 1, ?_⟩
    by_cases h0 : (attempt w freq 0).ret = 0
    · rw [volt_loop_ack w freq i h0]; rfl
    · rw [volt_loop_bad w freq i h0 (by omega)]; rfl
  | succ d ih =>
    intro w i hi
    by_cases h0 : (attempt w freq 0).ret = 0
    · exact ⟨1, le_refl 1, by omega, by rw [volt_loop_ack w freq i h0]; rfl⟩
    · by_cases hgt : i > HB_CPUFREQ_VOLT_RETRIES
      · exact ⟨1, le_refl 1, by omega, by rw [volt_loop_bad w freq i h0 hgt]; rfl⟩
      · obtain ⟨n, _, hn, hcalls⟩ := ih (fun n => w (n + 1)) (i + 1) (by omega)
        refine ⟨n + 1, by omega, by omega, ?_⟩
        rw [volt_loop_retry w freq i h0 hgt, map_attempt_succ w freq n]
        simp only [hcalls]

/-- The argument of every attempt is the frequency the loop was entered
with. -/
theorem attempt_freq (w : Nat → MboxReply) (freq j : Nat) :
    (attempt w freq j).freq = freq := by
  unfold attempt hb_voltage_change
  simp only
  split <;> rfl

/-- The calls recorded by `finish` are those of the loop. -/
theorem finish_calls (r : Option Int × List VoltCall) : (finish r).calls = r.2 := by
  unfold finish
  split <;> rfl

/-! ## One call of `hb_voltage_change` -/

/-- Conversion to `int` keeps the values of the `int` range. -/
theorem to_int_of_range (x : Int) (hlo : -2 ^ 31 ≤ x) (hhi : x < 2 ^ 31) : to_int x = x := by
  unfold to_int
  norm_num at hlo hhi ⊢
  omega

/-- Conversion of a `u32` to `int`: the upper half of the range becomes
negative. -/
theorem to_int_of_u32 (n : Nat) (h : n < 2 ^ 32) :
    to_int (n : Int) = if n < 2 ^ 31 then (n : Int) else (n : Int) - 2 ^ 32 := by
  unfold to_int
  norm_num at h ⊢
  split <;> omega

/-- The message of the declaration of `msg`, word by word. -/
theorem hb_msg_words (freq : Nat) (h32 : freq < 2 ^ 32) :
    hb_msg freq = [0x80000001, freq / 1000000, 0, 0, 0, 0, 0] := by
  have hdiv : freq / 1000000 < 2 ^ 32 := lt_of_le_of_lt (Nat.div_le_self _ _) h32
  have hmod : freq / 1000000 % 2 ^ 32 = freq / 1000000 := Nat.mod_eq_of_lt hdiv
  simp only [hb_msg, u32, HB_CPUFREQ_CHANGE_NOTE, HB_CPUFREQ_IPC_LEN, hmod]
  rfl

/-- The messages one call hands to the mailbox: none when the channel is
refused, else the initial contents of `msg`, once. -/
theorem sent_msgs_hb_voltage_change (env : MboxReply) (freq : Nat) :
    sent_msgs (hb_voltage_change env freq).ops =
      if IS_ERR (env.request_channel hb_client) then [] else [hb_msg freq] := by
  unfold hb_voltage_change
  simp only
  split <;> rfl

/-! ## The notifier on its branches -/

/-- On a triggering event the notifier is its retry loop for the new rate,
entered with counter 0. -/
theorem notify_triggering (w : Nat → MboxReply) (action : Nat) (d : clk_notifier_data)
    (h : triggering action d) :
    hb_cpufreq_clk_notify w action d = finish (volt_loop w (u32 d.new_rate) 0) := by
  unfold hb_cpufreq_clk_notify
  rcases h with ⟨ha, hr⟩ | ⟨ha, hr⟩
  · simp [ha, hr]
  · have hne : POST_RATE_CHANGE ≠ PRE_RATE_CHANGE := by decide
    simp [ha, hr, hne]

/-- On an event that is not triggering the notifier calls nothing and returns
`NOTIFY_DONE`. -/
theorem notify_not_triggering (w : Nat → MboxReply) (action : Nat) (d : clk_notifier_data)
    (h : ¬ triggering action d) :
    hb_cpufreq_clk_notify w action d = { ret := NOTIFY_DONE, calls := [] } := by
  unfold hb_cpufreq_clk_notify
  unfold triggering at h
  by_cases h1 : action = PRE_RATE_CHANGE
  · have hr : ¬ d.new_rate > d.old_rate := fun hr => h (Or.inl ⟨h1, hr⟩)
    simp [h1, hr]
  · by_cases h2 : action = POST_RATE_CHANGE
    · have hr : ¬ d.new_rate < d.old_rate := fun hr => h (Or.inr ⟨h2, hr⟩)
      have hne : POST_RATE_CHANGE ≠ PRE_RATE_CHANGE := by decide
      simp [h2, hr, hne]
    · simp [h1, h2]

/-- A triggering event against a channel whose first 17 attempts all fail:
the 17 attempts are made and the result is `NOTIFY_BAD`. -/
theorem notify_exhaust (w : Nat → MboxReply) (action : Nat) (d : clk_notifier_data)
    (h : triggering action d)
    (hfail : ∀ j, j ≤ HB_CPUFREQ_VOLT_RETRIES + 1 → (attempt w (u32 d.new_rate) j).ret ≠ 0) :
    hb_cpufreq_clk_notify w action d =
      { ret := NOTIFY_BAD
        calls := (List.range (HB_CPUFREQ_VOLT_RETRIES + 2)).map (attempt w (u32 d.new_rate)) } := by
  rw [notify_triggering w action d h,
    volt_loop_exhaust (u32 d.new_rate) (HB_CPUFREQ_VOLT_RETRIES + 1) w 0 (by omega) hfail]
  rfl

/-- A triggering event against a channel that first acknowledges on attempt
`m` (counted from 0), `m ≤ 16`: the attempts `0..m` are made and the result is
`NOTIFY_DONE`. -/
theorem notify_first_ack (w : Nat → MboxReply) (action : Nat) (d : clk_notifier_data)
    (m : Nat) (h : triggering action d) (hm : m ≤ HB_CPUFREQ_VOLT_RETRIES + 1)
    (hfail : ∀ j, j < m → (attempt w (u32 d.new_rate) j).ret ≠ 0)
    (hack : (attempt w (u32 d.new_rate) m).ret = 0) :
    hb_cpufreq_clk_notify w action d =
      { ret := NOTIFY_DONE
        calls := (List.range (m + 1)).map (attempt w (u32 d.new_rate)) } := by
  rw [notify_triggering w action d h,
    volt_loop_first_ack (u32 d.new_rate) m w 0 (by omega) hfail hack]
  rfl

/-- On a triggering event the calls are the attempts `0..n-1` for the new
rate, for some `n` between 1 and 17. -/
theorem notify_calls (w : Nat → MboxReply) (action : Nat) (d : clk_notifier_data)
    (h : triggering action d) :
    ∃ n, 1 ≤ n ∧ n ≤ HB_CPUFREQ_VOLT_RETRIES + 2 ∧
      (hb_cpufreq_clk_notify w action d).calls =
        (List.range n).map (attempt w (u32 d.new_rate)) := by
  obtain ⟨n, h1, h2, hc⟩ :=
    volt_loop_calls (u32 d.new_rate) (HB_CPUFREQ_VOLT_RETRIES + 1) w 0 (by omega)
  exact ⟨n, h1, h2, by rw [notify_triggering w action d h, finish_calls, hc]⟩

/-- The rejecting mailbox makes `hb_voltage_change` return its status 1. -/
theorem attempt_always_reject (freq j : Nat) :
    (attempt always_reject freq j).ret = 1 := by
  simp [attempt, always_reject, hb_voltage_change, reply_status, IS_ERR, MAX_ERRNO,
    hb_msg, to_int, u32]

/-! ## The claims -/

/-- C1: the claim is that a channel that never acknowledges gets exactly 16
calls of `hb_voltage_change` before the veto.  On the event of scenario 3
(800 MHz to 1200 MHz, before the change) with every attempt rejected, the code
returns `NOTIFY_BAD` after 17 calls: the counter is compared before it is
incremented, so the 17th failing call is the first to find it above
`HB_CPUFREQ_VOLT_RETRIES`. -/
theorem C1_never_acknowledged_makes_17_calls :
    (∀ j, (attempt always_reject (u32 1200000000) j).ret ≠ 0) ∧
    triggering PRE_RATE_CHANGE { old_rate := 800000000, new_rate := 1200000000 } ∧
    (hb_cpufreq_clk_notify always_reject PRE_RATE_CHANGE
      { old_rate := 800000000, new_rate := 1200000000 }).ret = NOTIFY_BAD ∧
    (hb_cpufreq_clk_notify always_reject PRE_RATE_CHANGE
      { old_rate := 800000000, new_rate := 1200000000 }).calls.length = 17 := by
  have hrej : ∀ j, (attempt always_reject (u32 1200000000) j).ret ≠ 0 := by
    intro j
    rw [attempt_always_reject]
    decide
  have htrig : triggering PRE_RATE_CHANGE { old_rate := 800000000, new_rate := 1200000000 } := by
    decide
  refine ⟨hrej, htrig, ?_, ?_⟩
  · rw [notify_exhaust always_reject PRE_RATE_CHANGE _ htrig (fun j _ => hrej j)]
  · rw [notify_exhaust always_reject PRE_RATE_CHANGE _ htrig (fun j _ => hrej j)]
    simp [HB_CPUFREQ_VOLT_RETRIES]

/-- C2: before a rate increase (`PRE_RATE_CHANGE`, `new_rate > old_rate`), for
every channel behaviour, the notifier calls `hb_voltage_change` at least once
and every call is for `new_rate`, a rate that fits the `unsigned int`
parameter as every `unsigned long` of the 32-bit Highbank does. -/
theorem C2_pre_increase_requests_new_rate (w : Nat → MboxReply) (action : Nat)
    (d : clk_notifier_data) (haction : action = PRE_RATE_CHANGE)
    (hup : d.new_rate > d.old_rate) (h32 : d.new_rate < 2 ^ 32) :
    (hb_cpufreq_clk_notify w action d).calls ≠ [] ∧
    ∀ c, c ∈ (hb_cpufreq_clk_notify w action d).calls → c.freq = d.new_rate := by
  have htrig : triggering action d := Or.inl ⟨haction, hup⟩
  have hconv : u32 d.new_rate = d.new_rate := Nat.mod_eq_of_lt h32
  obtain ⟨n, h1, _, hc⟩ := notify_calls w action d htrig
  rw [hc]
  constructor
  · intro hnil
    have hlen := congrArg List.length hnil
    simp at hlen
    omega
  · intro c hmem
    obtain ⟨j, _, rfl⟩ := List.mem_map.mp hmem
    rw [attempt_freq, hconv]

/-- C2 at scenario 1: 800 MHz to 1200 MHz before the change, acknowledged at
once. -/
theorem C2_pre_increase_requests_new_rate_witness :
    PRE_RATE_CHANGE = PRE_RATE_CHANGE ∧
    (1200000000 : Nat) > 800000000 ∧ (1200000000 : Nat) < 2 ^ 32 ∧
    (hb_cpufreq_clk_notify (ack_after 0) PRE_RATE_CHANGE
      { old_rate := 800000000, new_rate := 1200000000 }).calls ≠ [] ∧
    ∀ c, c ∈ (hb_cpufreq_clk_notify (ack_after 0) PRE_RATE_CHANGE
      { old_rate := 800000000, new_rate := 1200000000 }).calls → c.freq = 1200000000 :=
  ⟨rfl, by decide, by decide,
    C2_pre_increase_requests_new_rate (ack_after 0) PRE_RATE_CHANGE
      { old_rate := 800000000, new_rate := 1200000000 } rfl (by decide) (by decide)⟩

/-- C3: after a rate decrease (`POST_RATE_CHANGE`, `new_rate < old_rate`), for
every channel behaviour, the notifier calls `hb_voltage_change` at least once
and every call is for `new_rate` (which fits the `unsigned int` parameter). -/
theorem C3_post_decrease_requests_new_rate (w : Nat → MboxReply) (action : Nat)
    (d : clk_notifier_data) (haction : action = POST_RATE_CHANGE)
    (hdown : d.new_rate < d.old_rate) (h32 : d.new_rate < 2 ^ 32) :
    (hb_cpufreq_clk_notify w action d).calls ≠ [] ∧
    ∀ c, c ∈ (hb_cpufreq_clk_notify w action d).calls → c.freq = d.new_rate := by
  have htrig : triggering action d := Or.inr ⟨haction, hdown⟩
  have hconv : u32 d.new_rate = d.new_rate := Nat.mod_eq_of_lt h32
  obtain ⟨n, h1, _, hc⟩ := notify_calls w action d htrig
  rw [hc]
  constructor
  · intro hnil
    have hlen := congrArg List.length hnil
    simp at hlen
    omega
  · intro c hmem
    obtain ⟨j, _, rfl⟩ := List.mem_map.mp hmem
    rw [attempt_freq, hconv]

/-- C3 at scenario 4: 1200 MHz to 800 MHz after the change, two rejections
before the acknowledgment. -/
theorem C3_post_decrease_requests_new_rate_witness :
    POST_RATE_CHANGE = POST_RATE_CHANGE ∧
    (800000000 : Nat) < 1200000000 ∧ (800000000 : Nat) < 2 ^ 32 ∧
    (hb_cpufreq_clk_notify (ack_after 2) POST_RATE_CHANGE
      { old_rate := 1200000000, new_rate := 800000000 }).calls ≠ [] ∧
    ∀ c, c ∈ (hb_cpufreq_clk_notify (ack_after 2) POST_RATE_CHANGE
      { old_rate := 1200000000, new_rate := 800000000 }).calls → c.freq = 800000000 :=
  ⟨rfl, by decide, by decide,
    C3_post_decrease_requests_new_rate (ack_after 2) POST_RATE_CHANGE
      { old_rate := 1200000000, new_rate := 800000000 } rfl (by decide) (by decide)⟩

/-- C4: on `PRE_RATE_CHANGE` with `new_rate ≤ old_rate` (equality included),
whatever the channel would answer, `hb_voltage_change` is not called and the
notifier returns `NOTIFY_DONE`. -/
theorem C4_pre_no_increase_no_request (w : Nat → MboxReply) (action : Nat)
    (d : clk_notifier_data) (haction : action = PRE_RATE_CHANGE)
    (hle : d.new_rate ≤ d.old_rate) :
    (hb_cpufreq_clk_notify w action d).calls = [] ∧
    (hb_cpufreq_clk_notify w action d).ret = NOTIFY_DONE := by
  have hne : PRE_RATE_CHANGE ≠ POST_RATE_CHANGE := by decide
  have hnot : ¬ triggering action d := by
    rintro (⟨_, hr⟩ | ⟨ha, _⟩)
    · exact absurd hr (Nat.not_lt.mpr hle)
    · exact hne (haction.symm.trans ha)
  rw [notify_not_triggering w action d hnot]
  exact ⟨rfl, rfl⟩

/-- C4 at scenario 2: 1200 MHz to 800 MHz before the change, against a channel
that would reject everything. -/
theorem C4_pre_no_increase_no_request_witness :
    PRE_RATE_CHANGE = PRE_RATE_CHANGE ∧ (800000000 : Nat) ≤ 1200000000 ∧
    (hb_cpufreq_clk_notify always_reject PRE_RATE_CHANGE
      { old_rate := 1200000000, new_rate := 800000000 }).calls = [] ∧
    (hb_cpufreq_clk_notify always_reject PRE_RATE_CHANGE
      { old_rate := 1200000000, new_rate := 800000000 }).ret = NOTIFY_DONE :=
  ⟨rfl, by decide,
    C4_pre_no_increase_no_request always_reject PRE_RATE_CHANGE
      { old_rate := 1200000000, new_rate := 800000000 } rfl (by decide)⟩

/-- C5: on `POST_RATE_CHANGE` with `new_rate ≥ old_rate` (equality included),
whatever the channel would answer, `hb_voltage_change` is not called and the
notifier returns `NOTIFY_DONE`. -/
theorem C5_post_no_decrease_no_request (w : Nat → MboxReply) (action : Nat)
    (d : clk_notifier_data) (haction : action = POST_RATE_CHANGE)
    (hge : d.new_rate ≥ d.old_rate) :
    (hb_cpufreq_clk_notify w action d).calls = [] ∧
    (hb_cpufreq_clk_notify w action d).ret = NOTIFY_DONE := by
  have hne : POST_RATE_CHANGE ≠ PRE_RATE_CHANGE := by decide
  have hnot : ¬ triggering action d := by
    rintro (⟨ha, _⟩ | ⟨_, hr⟩)
    · exact hne (haction.symm.trans ha)
    · exact absurd hr (Nat.not_lt.mpr hge)
  rw [notify_not_triggering w action d hnot]
  exact ⟨rfl, rfl⟩

/-- C5 on an unchanged rate of 800 MHz after the change, against a channel
that would reject everything. -/
theorem C5_post_no_decrease_no_request_witness :
    POST_RATE_CHANGE = POST_RATE_CHANGE ∧ (800000000 : Nat) ≥ 800000000 ∧
    (hb_cpufreq_clk_notify always_reject POST_RATE_CHANGE
      { old_rate := 800000000, new_rate := 800000000 }).calls = [] ∧
    (hb_cpufreq_clk_notify always_reject POST_RATE_CHANGE
      { old_rate := 800000000, new_rate := 800000000 }).ret = NOTIFY_DONE :=
  ⟨rfl, by decide,
    C5_post_no_decrease_no_request always_reject POST_RATE_CHANGE
      { old_rate := 800000000, new_rate := 800000000 } rfl (by decide)⟩

/-- C6: on a triggering event, when the first acknowledged attempt is attempt
`k` (counted from 1, so attempts `1..k-1` return nonzero and attempt `k`
returns 0) and `1 ≤ k ≤ 16`, the notifier returns `NOTIFY_DONE` having made
exactly `k` calls, the attempts `1..k`: none follows the acknowledgment. -/
theorem C6_stops_at_first_acknowledgment (w : Nat → MboxReply) (action : Nat)
    (d : clk_notifier_data) (k : Nat) (htrig : triggering action d)
    (hk1 : 1 ≤ k) (hk16 : k ≤ 16)
    (hfail : ∀ j, 1 ≤ j → j < k → (attempt w (u32 d.new_rate) (j - 1)).ret ≠ 0)
    (hack : (attempt w (u32 d.new_rate) (k - 1)).ret = 0) :
    (hb_cpufreq_clk_notify w action d).ret = NOTIFY_DONE ∧
    (hb_cpufreq_clk_notify w action d).calls.length = k ∧
    (hb_cpufreq_clk_notify w action d).calls =
      (List.range k).map (attempt w (u32 d.new_rate)) := by
  have hm : k - 1 ≤ HB_CPUFREQ_VOLT_RETRIES + 1 := by
    simp only [HB_CPUFREQ_VOLT_RETRIES]
    omega
  have hfail0 : ∀ j, j < k - 1 → (attempt w (u32 d.new_rate) j).ret ≠ 0 := by
    intro j hj
    have := hfail (j + 1) (by omega) (by omega)
    simpa using this
  rw [notify_first_ack w action d (k - 1) htrig hm hfail0 hack]
  have hk : k - 1 + 1 = k := by omega
  rw [hk]
  exact ⟨rfl, by simp, rfl⟩

/-- C6 at scenario 4: 1200 MHz to 800 MHz after the change, acknowledged on
attempt 3 after two rejections. -/
theorem C6_stops_at_first_acknowledgment_witness :
    triggering POST_RATE_CHANGE { old_rate := 1200000000, new_rate := 800000000 } ∧
    1 ≤ 3 ∧ 3 ≤ 16 ∧
    (∀ j, 1 ≤ j → j < 3 → (attempt (ack_after 2) (u32 800000000) (j - 1)).ret ≠ 0) ∧
    (attempt (ack_after 2) (u32 800000000) (3 - 1)).ret = 0 ∧
    (hb_cpufreq_clk_notify (ack_after 2) POST_RATE_CHANGE
      { old_rate := 1200000000, new_rate := 800000000 }).ret = NOTIFY_DONE ∧
    (hb_cpufreq_clk_notify (ack_after 2) POST_RATE_CHANGE
      { old_rate := 1200000000, new_rate := 800000000 }).calls.length = 3 ∧
    (hb_cpufreq_clk_notify (ack_after 2) POST_RATE_CHANGE
      { old_rate := 1200000000, new_rate := 800000000 }).calls =
      (List.range 3).map (attempt (ack_after 2) (u32 800000000)) :=
  have hfail : ∀ j, 1 ≤ j → j < 3 →
      (attempt (ack_after 2) (u32 800000000) (j - 1)).ret ≠ 0 := by
    intro j h1 h3
    interval_cases j <;> decide
  ⟨by decide, by decide, by decide, hfail, by decide,
    C6_stops_at_first_acknowledgment (ack_after 2) POST_RATE_CHANGE
      { old_rate := 1200000000, new_rate := 800000000 } 3 (by decide) (by decide)
      (by decide) hfail (by decide)⟩

/-- C7: for a frequency that fits 32 bits, the message `hb_voltage_change`
hands to the channel is 7 words of 32 bits: the opcode `0x80000001`,
`freq / 1000000` rounded down, and five zeros.  It is handed over exactly when
the channel is acquired. -/
theorem C7_message_layout (env : MboxReply) (freq : Nat) (h32 : freq < 2 ^ 32) :
    (∀ m, m ∈ sent_msgs (hb_voltage_change env freq).ops →
      m = [0x80000001, freq / 1000000, 0, 0, 0, 0, 0] ∧ m.length = 7 ∧
      ∀ x, x ∈ m → x < 2 ^ 32) ∧
    (IS_ERR (env.request_channel hb_client) = false →
      sent_msgs (hb_voltage_change env freq).ops =
        [[0x80000001, freq / 1000000, 0, 0, 0, 0, 0]]) := by
  have hdiv : freq / 1000000 < 2 ^ 32 := lt_of_le_of_lt (Nat.div_le_self _ _) h32
  rw [sent_msgs_hb_voltage_change, hb_msg_words freq h32]
  constructor
  · intro m hm
    split at hm
    · simp at hm
    · rw [List.mem_singleton] at hm
      subst hm
      refine ⟨rfl, rfl, ?_⟩
      intro x hx
      simp only [List.mem_cons, List.mem_singleton] at hx
      rcases hx with rfl | rfl | rfl | rfl | rfl | rfl | rfl | hx
      · norm_num
      · exact hdiv
      · norm_num
      · norm_num
      · norm_num
      · norm_num
      · norm_num
      · simp at hx
  · intro hchan
    simp [hchan]

/-- C7 at 1,200,000,000 Hz: the MHz word is 1200. -/
theorem C7_message_layout_witness :
    (1200000000 : Nat) < 2 ^ 32 ∧
    (1200000000 : Nat) / 1000000 = 1200 ∧
    IS_ERR ((reply_status 0).request_channel hb_client) = false ∧
    sent_msgs (hb_voltage_change (reply_status 0) 1200000000).ops =
      [[0x80000001, 1200000000 / 1000000, 0, 0, 0, 0, 0]] :=
  ⟨by decide, by decide, by decide,
    (C7_message_layout (reply_status 0) 1200000000 (by decide)).2 (by decide)⟩

/-- C8: within one notification every message sent, on the first attempt and
on every retry, is the same 7-word message for the new rate, whatever the
responder wrote into the buffer of an earlier attempt: a message of attempt
`n + 1` equals a message of attempt 1. -/
theorem C8_retries_repeat_the_message (w : Nat → MboxReply) (action : Nat)
    (d : clk_notifier_data) :
    (∀ c, c ∈ (hb_cpufreq_clk_notify w action d).calls →
      ∀ m, m ∈ sent_msgs c.ops →
        m = hb_msg (u32 d.new_rate) ∧ m.length = HB_CPUFREQ_IPC_LEN) ∧
    (∀ n c1 cn, (hb_cpufreq_clk_notify w action d).calls.get? 0 = some c1 →
      (hb_cpufreq_clk_notify w action d).calls.get? (n + 1) = some cn →
      ∀ m1 mn, m1 ∈ sent_msgs c1.ops → mn ∈ sent_msgs cn.ops → mn = m1) := by
  have hall : ∀ c, c ∈ (hb_cpufreq_clk_notify w action d).calls →
      ∀ m, m ∈ sent_msgs c.ops → m = hb_msg (u32 d.new_rate) := by
    intro c hc m hm
    by_cases htrig : triggering action d
    · obtain ⟨n, _, _, hcalls⟩ := notify_calls w action d htrig
      rw [hcalls] at hc
      obtain ⟨j, _, rfl⟩ := List.mem_map.mp hc
      unfold attempt at hm
      rw [sent_msgs_hb_voltage_change] at hm
      split at hm
      · simp at hm
      · exact List.mem_singleton.mp hm
    · rw [notify_not_triggering w action d htrig] at hc
      simp at hc
  constructor
  · intro c hc m hm
    have := hall c hc m hm
    subst this
    exact ⟨rfl, rfl⟩
  · intro n c1 cn h1 hn m1 mn hm1 hmn
    rw [hall c1 (List.get?_mem h1) m1 hm1, hall cn (List.get?_mem hn) mn hmn]

/-- C8 against a responder that overwrites word 1 with status 1 on every
attempt: the buffer after the first send differs from the message, and the
later messages are the first message all the same. -/
theorem C8_retries_repeat_the_message_witness :
    ((always_reject 0).send_message 4096 (hb_msg (u32 1200000000))).2 ≠
      hb_msg (u32 1200000000) ∧
    (∀ n c1 cn,
      (hb_cpufreq_clk_notify always_reject PRE_RATE_CHANGE
        { old_rate := 800000000, new_rate := 1200000000 }).calls.get? 0 = some c1 →
      (hb_cpufreq_clk_notify always_reject PRE_RATE_CHANGE
        { old_rate := 800000000, new_rate := 1200000000 }).calls.get? (n + 1) = some cn →
      ∀ m1 mn, m1 ∈ sent_msgs c1.ops → mn ∈ sent_msgs cn.ops → mn = m1) :=
  ⟨by decide,
    (C8_retries_repeat_the_message always_reject PRE_RATE_CHANGE
      { old_rate := 800000000, new_rate := 1200000000 }).2⟩

/-- C9: when the channel is acquired and `mbox_send_message` returns nonzero,
`hb_voltage_change` returns 0 exactly when word 1 of the buffer after the send
is 0, and in every case returns that 32-bit word read as an `int`. -/
theorem C9_status_slot_is_the_result (env : MboxReply) (freq : Nat)
    (hchan : IS_ERR (env.request_channel hb_client) = false)
    (hsent : (env.send_message (env.request_channel hb_client) (hb_msg freq)).1 ≠ 0)
    (hword : (env.send_message (env.request_channel hb_client) (hb_msg freq)).2.getD 1 0
      < 2 ^ 32) :
    ((hb_voltage_change env freq).ret = 0 ↔
      (env.send_message (env.request_channel hb_client) (hb_msg freq)).2.getD 1 0 = 0) ∧
    (hb_voltage_change env freq).ret =
      (if (env.send_message (env.request_channel hb_client) (hb_msg freq)).2.getD 1 0 < 2 ^ 31
        then ((env.send_message (env.request_channel hb_client) (hb_msg freq)).2.getD 1 0 : Int)
        else ((env.send_message (env.request_channel hb_client) (hb_msg freq)).2.getD 1 0 : Int)
          - 2 ^ 32) := by
  have hret : (hb_voltage_change env freq).ret =
      to_int ((env.send_message (env.request_channel hb_client) (hb_msg freq)).2.getD 1 0 : Int) := by
    unfold hb_voltage_change
    simp only [hchan, Bool.false_eq_true, if_false, ne_eq, hsent, not_false_eq_true,
      if_true, u32, Nat.mod_eq_of_lt hword]
  generalize (env.send_message (env.request_channel hb_client) (hb_msg freq)).2.getD 1 0 = word
    at hword hret ⊢
  rw [hret, to_int_of_u32 word hword]
  refine ⟨?_, rfl⟩
  norm_num at hword ⊢
  split <;> omega

/-- C9 at the status words 0 and `0xffffffff`: the first is the
acknowledgment, the second is returned as -1. -/
theorem C9_status_slot_is_the_result_witness :
    (hb_voltage_change (reply_status 0) 1200000000).ret = 0 ∧
    ((reply_status 4294967295).send_message
      ((reply_status 4294967295).request_channel hb_client) (hb_msg 1200000000)).2.getD 1 0
        = 4294967295 ∧
    (hb_voltage_change (reply_status 4294967295) 1200000000).ret = -1 :=
  ⟨((C9_status_slot_is_the_result (reply_status 0) 1200000000 (by decide) (by decide)
      (by decide)).1).2 (by decide),
    by decide,
    ((C9_status_slot_is_the_result (reply_status 4294967295) 1200000000 (by decide)
      (by decide) (by decide)).2).trans (by decide)⟩

/-- C10: a transport failure never looks like an acknowledgment.  When the
channel is refused (`IS_ERR`), `hb_voltage_change` returns `PTR_ERR` of the
pointer, a negated errno, negative and nonzero; when the channel is acquired
and `mbox_send_message` returns 0, it returns `-ETIMEDOUT`, nonzero, whatever
the buffer holds. -/
theorem C10_transport_failure_is_reported (env : MboxReply) (freq : Nat) :
    (IS_ERR (env.request_channel hb_client) = true →
      (hb_voltage_change env freq).ret = PTR_ERR (env.request_channel hb_client) ∧
      -MAX_ERRNO ≤ (hb_voltage_change env freq).ret ∧
      (hb_voltage_change env freq).ret < 0 ∧
      (hb_voltage_change env freq).ret ≠ 0) ∧
    (IS_ERR (env.request_channel hb_client) = false →
      (env.send_message (env.request_channel hb_client) (hb_msg freq)).1 = 0 →
      (hb_voltage_change env freq).ret = -ETIMEDOUT ∧
      (hb_voltage_change env freq).ret ≠ 0) := by
  constructor
  · intro herr
    have hrange : -MAX_ERRNO ≤ env.request_channel hb_client ∧
        env.request_channel hb_client < 0 := by
      simpa [IS_ERR] using herr
    have hret : (hb_voltage_change env freq).ret = env.request_channel hb_client := by
      unfold hb_voltage_change
      simp only [herr, PTR_ERR, if_true]
      apply to_int_of_range
      · have := hrange.1
        simp only [MAX_ERRNO] at this
        norm_num
        omega
      · have := hrange.2
        norm_num
        omega
    rw [hret]
    exact ⟨rfl, hrange.1, hrange.2, ne_of_lt hrange.2⟩
  · intro hchan hsent
    have hret : (hb_voltage_change env freq).ret = -ETIMEDOUT := by
      unfold hb_voltage_change
      simp [hchan, hsent]
    rw [hret]
    exact ⟨rfl, by decide⟩

/-- C10 at a refused channel (errno 16) and at a send that reports no
completion. -/
theorem C10_transport_failure_is_reported_witness :
    IS_ERR ((reply_nochan 16).request_channel hb_client) = true ∧
    (hb_voltage_change (reply_nochan 16) 1200000000).ret = -16 ∧
    IS_ERR (reply_timeout.request_channel hb_client) = false ∧
    (reply_timeout.send_message (reply_timeout.request_channel hb_client)
      (hb_msg 1200000000)).1 = 0 ∧
    (hb_voltage_change reply_timeout 1200000000).ret = -ETIMEDOUT :=
  ⟨by decide,
    (((C10_transport_failure_is_reported (reply_nochan 16) 1200000000).1 (by decide)).1).trans
      (by decide),
    by decide, by decide,
    ((C10_transport_failure_is_reported reply_timeout 1200000000).2 (by decide) (by decide)).1⟩

/-! ## The verdict of the retry loop -/

/-- The verdict and the number of calls of the loop depend only on which
attempts are acknowledged, not on what the failing ones return. -/
theorem volt_loop_same_acks (freq : Nat) :
    ∀ (n : Nat) (w1 w2 : Nat → MboxReply) (i : Nat),
      HB_CPUFREQ_VOLT_RETRIES + 1 - i ≤ n →
      (∀ j, (attempt w1 freq j).ret = 0 ↔ (attempt w2 freq j).ret = 0) →
      (volt_loop w1 freq i).1 = (volt_loop w2 freq i).1 ∧
      (volt_loop w1 freq i).2.length = (volt_loop w2 freq i).2.length := by
  intro n
  induction n with
  | zero =>
    intro w1 w2 i hi hsame
    by_cases h0 : (attempt w1 freq 0).ret = 0
    · rw [volt_loop_ack w1 freq i h0, volt_loop_ack w2 freq i ((hsame 0).mp h0)]
      exact ⟨rfl, rfl⟩
    · have h0b : (attempt w2 freq 0).ret ≠ 0 := fun h => h0 ((hsame 0).mpr h)
      rw [volt_loop_bad w1 freq i h0 (by omega), volt_loop_bad w2 freq i h0b (by omega)]
      exact ⟨rfl, rfl⟩
  | succ n ih =>
    intro w1 w2 i hi hsame
    by_cases h0 : (attempt w1 freq 0).ret = 0
    · rw [volt_loop_ack w1 freq i h0, volt_loop_ack w2 freq i ((hsame 0).mp h0)]
      exact ⟨rfl, rfl⟩
    · have h0b : (attempt w2 freq 0).ret ≠ 0 := fun h => h0 ((hsame 0).mpr h)
      by_cases hgt : i > HB_CPUFREQ_VOLT_RETRIES
      · rw [volt_loop_bad w1 freq i h0 hgt, volt_loop_bad w2 freq i h0b hgt]
        exact ⟨rfl, rfl⟩
      · obtain ⟨hv, hl⟩ := ih (fun k => w1 (k + 1)) (fun k => w2 (k + 1)) (i + 1)
          (by omega) (fun j => hsame (j + 1))
        rw [volt_loop_retry w1 freq i h0 hgt, volt_loop_retry w2 freq i h0b hgt]
        exact ⟨hv, by simp only [List.length_cons, hl]⟩

/-- The loop either returns `NOTIFY_BAD` and none of its calls was
acknowledged, or runs to its end and one of its calls was acknowledged. -/
theorem volt_loop_verdict (freq : Nat) :
    ∀ (n : Nat) (w : Nat → MboxReply) (i : Nat),
      HB_CPUFREQ_VOLT_RETRIES + 1 - i ≤ n →
      ((volt_loop w freq i).1 = some NOTIFY_BAD ∧
        ∀ c, c ∈ (volt_loop w freq i).2 → c.ret ≠ 0) ∨
      ((volt_loop w freq i).1 = none ∧
        ∃ c, c ∈ (volt_loop w freq i).2 ∧ c.ret = 0) := by
  intro n
  induction n with
  | zero =>
    intro w i hi
    by_cases h0 : (attempt w freq 0).ret = 0
    · right
      rw [volt_loop_ack w freq i h0]
      exact ⟨rfl, attempt w freq 0, List.mem_singleton.mpr rfl, h0⟩
    · left
      rw [volt_loop_bad w freq i h0 (by omega)]
      refine ⟨rfl, ?_⟩
      intro c hc
      rw [List.mem_singleton.mp hc]
      exact h0
  | succ n ih =>
    intro w i hi
    by_cases h0 : (attempt w freq 0).ret = 0
    · right
      rw [volt_loop_ack w freq i h0]
      exact ⟨rfl, attempt w freq 0, List.mem_singleton.mpr rfl, h0⟩
    · by_cases hgt : i > HB_CPUFREQ_VOLT_RETRIES
      · left
        rw [volt_loop_bad w freq i h0 hgt]
        refine ⟨rfl, ?_⟩
        intro c hc
        rw [List.mem_singleton.mp hc]
        exact h0
      · rw [volt_loop_retry w freq i h0 hgt]
        rcases ih (fun k => w (k + 1)) (i + 1) (by omega) with ⟨hv, hall⟩ | ⟨hv, c, hc, hz⟩
        · left
          refine ⟨hv, ?_⟩
          intro c hc
          rcases List.mem_cons.mp hc with rfl | hc
          · exact h0
          · exact hall c hc
        · right
          exact ⟨hv, c, List.mem_cons_of_mem _ hc, hz⟩

/-- The result of `finish` after a loop that returned `v`. -/
theorem finish_some (r : Option Int × List VoltCall) (v : Int) (h : r.1 = some v) :
    finish r = { ret := v, calls := r.2 } := by
  unfold finish
  rw [h]

/-- The result of `finish` after a loop that ran to its end. -/
theorem finish_none (r : Option Int × List VoltCall) (h : r.1 = none) :
    finish r = { ret := NOTIFY_DONE, calls := r.2 } := by
  unfold finish
  rw [h]

/-- On a triggering event the notifier either returns `NOTIFY_BAD` with no
call acknowledged or `NOTIFY_DONE` with a call acknowledged. -/
theorem notify_verdict (w : Nat → MboxReply) (action : Nat) (d : clk_notifier_data)
    (h : triggering action d) :
    ((hb_cpufreq_clk_notify w action d).ret = NOTIFY_BAD ∧
      ∀ c, c ∈ (hb_cpufreq_clk_notify w action d).calls → c.ret ≠ 0) ∨
    ((hb_cpufreq_clk_notify w action d).ret = NOTIFY_DONE ∧
      ∃ c, c ∈ (hb_cpufreq_clk_notify w action d).calls ∧ c.ret = 0) := by
  rw [notify_triggering w action d h]
  rcases volt_loop_verdict (u32 d.new_rate) (HB_CPUFREQ_VOLT_RETRIES + 1) w 0 (by omega)
    with ⟨hv, hall⟩ | ⟨hv, hex⟩
  · left
    rw [finish_some _ _ hv]
    exact ⟨rfl, hall⟩
  · right
    rw [finish_none _ hv]
    exact ⟨rfl, hex⟩

/-- From attempt `n` on, `ack_after n` acknowledges. -/
theorem attempt_ack_after_ge (n freq j : Nat) (h : n ≤ j) :
    (attempt (ack_after n) freq j).ret = 0 := by
  have hlt : ¬ j < n := Nat.not_lt.mpr h
  simp [attempt, ack_after, hlt, hb_voltage_change, reply_status, IS_ERR, MAX_ERRNO,
    hb_msg, to_int, u32]

/-- From attempt `n` on, `timeout_then_ack n` acknowledges. -/
theorem attempt_timeout_then_ack_ge (n freq j : Nat) (h : n ≤ j) :
    (attempt (timeout_then_ack n) freq j).ret = 0 := by
  have hlt : ¬ j < n := Nat.not_lt.mpr h
  simp [attempt, timeout_then_ack, hlt, hb_voltage_change, reply_status, IS_ERR, MAX_ERRNO,
    hb_msg, to_int, u32]

/-- C11: on a triggering event, two channel behaviours that are acknowledged
on exactly the same attempts, whatever nonzero value each failing attempt
returns (a status of the responder, an errno of the transport), get the same
verdict and the same number of calls of `hb_voltage_change`. -/
theorem C11_failure_kinds_are_not_distinguished (w1 w2 : Nat → MboxReply) (action : Nat)
    (d : clk_notifier_data) (htrig : triggering action d)
    (hsame : ∀ j, (attempt w1 (u32 d.new_rate) j).ret = 0 ↔
      (attempt w2 (u32 d.new_rate) j).ret = 0) :
    (hb_cpufreq_clk_notify w1 action d).ret = (hb_cpufreq_clk_notify w2 action d).ret ∧
    (hb_cpufreq_clk_notify w1 action d).calls.length =
      (hb_cpufreq_clk_notify w2 action d).calls.length := by
  obtain ⟨hv, hl⟩ := volt_loop_same_acks (u32 d.new_rate) (HB_CPUFREQ_VOLT_RETRIES + 1)
    w1 w2 0 (by omega) hsame
  rw [notify_triggering w1 action d htrig, notify_triggering w2 action d htrig]
  constructor
  · unfold finish
    rw [hv]
    generalize (volt_loop w2 (u32 d.new_rate) 0).1 = v
    cases v <;> rfl
  · rw [finish_calls, finish_calls]
    exact hl

/-- C11 at scenario 5: the first attempt is rejected with status 1 by one
channel and times out (`-ETIMEDOUT`) on the other, the second is acknowledged
by both. -/
theorem C11_failure_kinds_are_not_distinguished_witness :
    triggering PRE_RATE_CHANGE { old_rate := 800000000, new_rate := 1200000000 } ∧
    (attempt (ack_after 1) (u32 1200000000) 0).ret = 1 ∧
    (attempt (timeout_then_ack 1) (u32 1200000000) 0).ret = -ETIMEDOUT ∧
    (∀ j, (attempt (ack_after 1) (u32 1200000000) j).ret = 0 ↔
      (attempt (timeout_then_ack 1) (u32 1200000000) j).ret = 0) ∧
    (hb_cpufreq_clk_notify (ack_after 1) PRE_RATE_CHANGE
      { old_rate := 800000000, new_rate := 1200000000 }).ret =
      (hb_cpufreq_clk_notify (timeout_then_ack 1) PRE_RATE_CHANGE
        { old_rate := 800000000, new_rate := 1200000000 }).ret ∧
    (hb_cpufreq_clk_notify (ack_after 1) PRE_RATE_CHANGE
      { old_rate := 800000000, new_rate := 1200000000 }).calls.length =
      (hb_cpufreq_clk_notify (timeout_then_ack 1) PRE_RATE_CHANGE
        { old_rate := 800000000, new_rate := 1200000000 }).calls.length :=
  have hsame : ∀ j, (attempt (ack_after 1) (u32 1200000000) j).ret = 0 ↔
      (attempt (timeout_then_ack 1) (u32 1200000000) j).ret = 0 := by
    intro j
    cases j with
    | zero => decide
    | succ k =>
      rw [attempt_ack_after_ge 1 _ (k + 1) (by omega),
        attempt_timeout_then_ack_ge 1 _ (k + 1) (by omega)]
  ⟨by decide, by decide, by decide, hsame,
    C11_failure_kinds_are_not_distinguished (ack_after 1) (timeout_then_ack 1)
      PRE_RATE_CHANGE { old_rate := 800000000, new_rate := 1200000000 } (by decide) hsame⟩

/-- C12: for every event and every channel behaviour the notifier returns
`NOTIFY_BAD` or `NOTIFY_DONE` and nothing else, and it returns `NOTIFY_BAD`
exactly when the event is a triggering one and none of the calls of
`hb_voltage_change` made was acknowledged; in every other case it returns
`NOTIFY_DONE`. -/
theorem C12_veto_only_when_nothing_acknowledged (w : Nat → MboxReply) (action : Nat)
    (d : clk_notifier_data) :
    ((hb_cpufreq_clk_notify w action d).ret = NOTIFY_BAD ∨
      (hb_cpufreq_clk_notify w action d).ret = NOTIFY_DONE) ∧
    ((hb_cpufreq_clk_notify w action d).ret = NOTIFY_BAD →
      triggering action d ∧
        ∀ c, c ∈ (hb_cpufreq_clk_notify w action d).calls → c.ret ≠ 0) ∧
    (¬ (triggering action d ∧
        ∀ c, c ∈ (hb_cpufreq_clk_notify w action d).calls → c.ret ≠ 0) →
      (hb_cpufreq_clk_notify w action d).ret = NOTIFY_DONE) := by
  have hne : NOTIFY_DONE ≠ NOTIFY_BAD := by decide
  by_cases htrig : triggering action d
  · rcases notify_verdict w action d htrig with ⟨hv, hall⟩ | ⟨hv, c, hc, hz⟩
    · exact ⟨Or.inl hv, fun _ => ⟨htrig, hall⟩, fun hnot => absurd ⟨htrig, hall⟩ hnot⟩
    · refine ⟨Or.inr hv, ?_, fun _ => hv⟩
      intro hbad
      exact absurd (hv.symm.trans hbad) hne
  · have hrun := notify_not_triggering w action d htrig
    have hv : (hb_cpufreq_clk_notify w action d).ret = NOTIFY_DONE := by rw [hrun]
    refine ⟨Or.inr hv, ?_, fun _ => hv⟩
    intro hbad
    exact absurd (hv.symm.trans hbad) hne

/-- C12 on two runs against a channel that never acknowledges: the rate
increase is vetoed, with no call acknowledged, and the rate decrease announced
before the change, which is not triggering, returns `NOTIFY_DONE`. -/
theorem C12_veto_only_when_nothing_acknowledged_witness :
    (hb_cpufreq_clk_notify always_reject PRE_RATE_CHANGE
      { old_rate := 800000000, new_rate := 1200000000 }).ret = NOTIFY_BAD ∧
    (∀ c, c ∈ (hb_cpufreq_clk_notify always_reject PRE_RATE_CHANGE
      { old_rate := 800000000, new_rate := 1200000000 }).calls → c.ret ≠ 0) ∧
    ¬ triggering PRE_RATE_CHANGE { old_rate := 1200000000, new_rate := 800000000 } ∧
    (hb_cpufreq_clk_notify always_reject PRE_RATE_CHANGE
      { old_rate := 1200000000, new_rate := 800000000 }).ret = NOTIFY_DONE :=
  have hrej : ∀ j, j ≤ HB_CPUFREQ_VOLT_RETRIES + 1 →
      (attempt always_reject (u32 1200000000) j).ret ≠ 0 := by
    intro j _
    rw [attempt_always_reject]
    decide
  have hbad : (hb_cpufreq_clk_notify always_reject PRE_RATE_CHANGE
      { old_rate := 800000000, new_rate := 1200000000 }).ret = NOTIFY_BAD := by
    rw [notify_exhaust always_reject PRE_RATE_CHANGE _ (by decide) hrej]
  ⟨hbad,
    ((C12_veto_only_when_nothing_acknowledged always_reject PRE_RATE_CHANGE
      { old_rate := 800000000, new_rate := 1200000000 }).2.1 hbad).2,
    by decide,
    (C12_veto_only_when_nothing_acknowledged always_reject PRE_RATE_CHANGE
      { old_rate := 1200000000, new_rate := 800000000 }).2.2
      (fun h => absurd h.1 (by decide))⟩

/-- C13: the two triggering branches retry alike.  For rates
`old_up < new_rate < old_down` and every channel behaviour, the notification
before the increase from `old_up` and the one after the decrease from
`old_down` return the same value, make the same calls and send the same
sequence of messages. -/
theorem C13_both_branches_retry_alike (w : Nat → MboxReply)
    (new_rate old_up old_down : Nat) (hup : old_up < new_rate) (hdown : new_rate < old_down) :
    (hb_cpufreq_clk_notify w PRE_RATE_CHANGE { old_rate := old_up, new_rate := new_rate }).ret =
      (hb_cpufreq_clk_notify w POST_RATE_CHANGE
        { old_rate := old_down, new_rate := new_rate }).ret ∧
    (hb_cpufreq_clk_notify w PRE_RATE_CHANGE { old_rate := old_up, new_rate := new_rate }).calls =
      (hb_cpufreq_clk_notify w POST_RATE_CHANGE
        { old_rate := old_down, new_rate := new_rate }).calls ∧
    run_msgs (hb_cpufreq_clk_notify w PRE_RATE_CHANGE
        { old_rate := old_up, new_rate := new_rate }) =
      run_msgs (hb_cpufreq_clk_notify w POST_RATE_CHANGE
        { old_rate := old_down, new_rate := new_rate }) := by
  have hpre : triggering PRE_RATE_CHANGE { old_rate := old_up, new_rate := new_rate } :=
    Or.inl ⟨rfl, hup⟩
  have hpost : triggering POST_RATE_CHANGE { old_rate := old_down, new_rate := new_rate } :=
    Or.inr ⟨rfl, hdown⟩
  rw [notify_triggering w PRE_RATE_CHANGE _ hpre, notify_triggering w POST_RATE_CHANGE _ hpost]
  exact ⟨rfl, rfl, rfl⟩

/-- C13 at 1000 MHz, reached from 800 MHz and from 1200 MHz, with two
rejections before the acknowledgment. -/
theorem C13_both_branches_retry_alike_witness :
    (800000000 : Nat) < 1000000000 ∧ (1000000000 : Nat) < 1200000000 ∧
    (hb_cpufreq_clk_notify (ack_after 2) PRE_RATE_CHANGE
        { old_rate := 800000000, new_rate := 1000000000 }).calls =
      (hb_cpufreq_clk_notify (ack_after 2) POST_RATE_CHANGE
        { old_rate := 1200000000, new_rate := 1000000000 }).calls :=
  ⟨by decide, by decide,
    (C13_both_branches_retry_alike (ack_after 2) 1000000000 800000000 1200000000
      (by decide) (by decide)).2.1⟩

/-- C14: each call of `hb_voltage_change` asks once for the channel named
"pl320:A9_to_M3".  When the channel is granted it sends one message and then
frees that channel once, whatever the send returned; when the channel is
refused it neither sends nor frees. -/
theorem C14_channel_is_acquired_and_released_per_call (env : MboxReply) (freq : Nat) :
    hb_client.chan_name = "pl320:A9_to_M3" ∧
    (IS_ERR (env.request_channel hb_client) = false →
      (hb_voltage_change env freq).ops =
        [MboxOp.request_channel hb_client,
          MboxOp.send_message (env.request_channel hb_client) (hb_msg freq),
          MboxOp.free_channel (env.request_channel hb_client)]) ∧
    (IS_ERR (env.request_channel hb_client) = true →
      (hb_voltage_change env freq).ops = [MboxOp.request_channel hb_client]) := by
  refine ⟨rfl, ?_, ?_⟩
  · intro hchan
    unfold hb_voltage_change
    simp only [hchan, Bool.false_eq_true, if_false]
  · intro herr
    unfold hb_voltage_change
    simp only [herr, if_true]

/-- C14 on a send that reports no completion, where the channel is freed all
the same, and on a refused channel, where the request is the only
operation. -/
theorem C14_channel_is_acquired_and_released_per_call_witness :
    IS_ERR (reply_timeout.request_channel hb_client) = false ∧
    (reply_timeout.send_message 4096 (hb_msg 1200000000)).1 = 0 ∧
    (hb_voltage_change reply_timeout 1200000000).ops =
      [MboxOp.request_channel hb_client,
        MboxOp.send_message (reply_timeout.request_channel hb_client) (hb_msg 1200000000),
        MboxOp.free_channel (reply_timeout.request_channel hb_client)] ∧
    IS_ERR ((reply_nochan 16).request_channel hb_client) = true ∧
    (hb_voltage_change (reply_nochan 16) 1200000000).ops =
      [MboxOp.request_channel hb_client] :=
  ⟨by decide, by decide,
    (C14_channel_is_acquired_and_released_per_call reply_timeout 1200000000).2.1 (by decide),
    by decide,
    (C14_channel_is_acquired_and_released_per_call (reply_nochan 16) 1200000000).2.2
      (by decide)⟩

/-- C15: for every event and every channel behaviour, a channel that never
acknowledges included, the notifier returns (it is a total function, its loop
recursing on the distance of the counter to its bound) after at most
`HB_CPUFREQ_VOLT_RETRIES + 2 = 17` calls of `hb_voltage_change`. -/
theorem C15_at_most_17_calls (w : Nat → MboxReply) (action : Nat) (d : clk_notifier_data) :
    (∃ r, hb_cpufreq_clk_notify w action d = r ∧
      r.calls.length ≤ HB_CPUFREQ_VOLT_RETRIES + 2) ∧
    HB_CPUFREQ_VOLT_RETRIES + 2 = 17 := by
  refine ⟨⟨hb_cpufreq_clk_notify w action d, rfl, ?_⟩, rfl⟩
  by_cases htrig : triggering action d
  · obtain ⟨n, _, hn, hc⟩ := notify_calls w action d htrig
    rw [hc, List.length_map, List.length_range]
    exact hn
  · rw [notify_not_triggering w action d htrig]
    exact Nat.zero_le _

/-- C16: on an action that is neither `PRE_RATE_CHANGE` nor
`POST_RATE_CHANGE`, for all rates and whatever the channel would answer,
`hb_voltage_change` is not called and the notifier returns `NOTIFY_DONE`. -/
theorem C16_other_actions_request_nothing (w : Nat → MboxReply) (action : Nat)
    (d : clk_notifier_data) (hpre : action ≠ PRE_RATE_CHANGE)
    (hpost : action ≠ POST_RATE_CHANGE) :
    (hb_cpufreq_clk_notify w action d).calls = [] ∧
    (hb_cpufreq_clk_notify w action d).ret = NOTIFY_DONE := by
  have hnot : ¬ triggering action d := by
    rintro (⟨ha, _⟩ | ⟨ha, _⟩)
    · exact hpre ha
    · exact hpost ha
  rw [notify_not_triggering w action d hnot]
  exact ⟨rfl, rfl⟩

/-- C16 at `ABORT_RATE_CHANGE` on a rate increase, against a channel that
would reject everything. -/
theorem C16_other_actions_request_nothing_witness :
    ABORT_RATE_CHANGE ≠ PRE_RATE_CHANGE ∧ ABORT_RATE_CHANGE ≠ POST_RATE_CHANGE ∧
    (hb_cpufreq_clk_notify always_reject ABORT_RATE_CHANGE
      { old_rate := 800000000, new_rate := 1200000000 }).calls = [] ∧
    (hb_cpufreq_clk_notify always_reject ABORT_RATE_CHANGE
      { old_rate := 800000000, new_rate := 1200000000 }).ret = NOTIFY_DONE :=
  ⟨by decide, by decide,
    C16_other_actions_request_nothing always_reject ABORT_RATE_CHANGE
      { old_rate := 800000000, new_rate := 1200000000 } (by decide) (by decide)⟩

/-- C17: the status is read from the word that carried the frequency.  When
the channel is acquired and the send returns nonzero with the buffer as it was
sent, `hb_voltage_change` returns `freq / 1000000` (for `freq` an
`unsigned int`): nonzero, a failure, exactly when `freq ≥ 1000000`, and 0, an
acknowledgment, exactly when `freq < 1000000`. -/
theorem C17_untouched_buffer_returns_the_mhz (env : MboxReply) (freq : Nat)
    (h32 : freq < 2 ^ 32)
    (hchan : IS_ERR (env.request_channel hb_client) = false)
    (hsent : (env.send_message (env.request_channel hb_client) (hb_msg freq)).1 ≠ 0)
    (hbuf : (env.send_message (env.request_channel hb_client) (hb_msg freq)).2 =
      hb_msg freq) :
    (hb_voltage_change env freq).ret = ((freq / 1000000 : Nat) : Int) ∧
    ((hb_voltage_change env freq).ret ≠ 0 ↔ freq ≥ 1000000) ∧
    ((hb_voltage_change env freq).ret = 0 ↔ freq < 1000000) := by
  have hmhz : freq / 1000000 < 2 ^ 31 := by
    norm_num at h32 ⊢
    omega
  have hword : (hb_msg freq).getD 1 0 = freq / 1000000 := by
    rw [hb_msg_words freq h32]
    rfl
  have hu32 : u32 (freq / 1000000) = freq / 1000000 :=
    Nat.mod_eq_of_lt (lt_trans hmhz (by norm_num))
  have hret : (hb_voltage_change env freq).ret = ((freq / 1000000 : Nat) : Int) := by
    unfold hb_voltage_change
    simp only [hchan, Bool.false_eq_true, if_false, ne_eq, hsent, not_false_eq_true,
      if_true, hbuf, hword, hu32]
    apply to_int_of_range
    · have : (0 : Int) ≤ ((freq / 1000000 : Nat) : Int) := Int.ofNat_nonneg _
      norm_num
      omega
    · exact_mod_cast hmhz
  rw [hret]
  refine ⟨rfl, ?_, ?_⟩
  · constructor
    · intro h
      by_contra hlt
      exact h (by exact_mod_cast Nat.div_eq_of_lt (Nat.not_le.mp hlt))
    · intro hge h
      have h0 : freq / 1000000 = 0 := by exact_mod_cast h
      omega
  · constructor
    · intro h
      have h0 : freq / 1000000 = 0 := by exact_mod_cast h
      omega
    · intro hlt
      exact_mod_cast Nat.div_eq_of_lt hlt

/-- C17 on a mailbox that reports delivery and leaves the buffer alone: at
1,200,000,000 Hz the call returns 1200, a failure, and at 999,999 Hz it
returns 0. -/
theorem C17_untouched_buffer_returns_the_mhz_witness :
    (reply_untouched.send_message (reply_untouched.request_channel hb_client)
      (hb_msg 1200000000)).2 = hb_msg 1200000000 ∧
    (hb_voltage_change reply_untouched 1200000000).ret = 1200 ∧
    (hb_voltage_change reply_untouched 999999).ret = 0 :=
  ⟨by decide,
    ((C17_untouched_buffer_returns_the_mhz reply_untouched 1200000000 (by decide)
      (by decide) (by decide) (by decide)).1).trans (by decide),
    ((C17_untouched_buffer_returns_the_mhz reply_untouched 999999 (by decide)
      (by decide) (by decide) (by decide)).2.2).2 (by decide)⟩

end Highbank
